import Mathlib

/-!
Verification development for the `real_ip` mptcpd plugin (`src/lib.rs`).

The plugin's `addr_add` callback is embedded as a pure function over an
explicit world: the process environment, the outcome of building the HTTP
client, the HTTP response (if any), the daemon's identifier lookup, and the
result code of the daemon's advertisement primitive.  The callback's
observable behaviour — log entries, client builds, GET requests, identifier
lookups and advertisement calls — is collected in an `Effects` record.
-/

/-- Linux address-family discriminant for IPv4 (`libc::AF_INET`). -/
def AF_INET : Nat := 2

/-- Linux address-family discriminant for IPv6 (`libc::AF_INET6`). -/
def AF_INET6 : Nat := 10

/-- Default lookup endpoint, `GET_MY_IP` in `src/lib.rs`. -/
def GET_MY_IP : String := "https://icanhazip.com"

/-- Modelled from the spec: `MPTCPD_ADDR_FLAG_SIGNAL` comes from the host
daemon's C headers through generated bindings that are not under `src/`;
the value mirrors the MPTCP path-manager SIGNAL flag bit. -/
def MPTCPD_ADDR_FLAG_SIGNAL : Nat := 1

/-- Modelled from the spec: `MPTCPD_ADDR_FLAG_SUBFLOW` comes from the host
daemon's C headers through generated bindings that are not under `src/`;
the value mirrors the MPTCP path-manager SUBFLOW flag bit. -/
def MPTCPD_ADDR_FLAG_SUBFLOW : Nat := 2

/-- A typed IP address (`std::net::IpAddr`), carried as its octet list. -/
inductive IpAddr where
  | v4 (octets : List Nat)
  | v6 (octets : List Nat)
deriving DecidableEq

/-- Big-endian interpretation of a byte list, modelling `u32::from_be` of the
in-memory `s_addr` word and `u128::from_be_bytes` of `s6_addr`. -/
def bytesToNatBE : List Nat → Nat
  | [] => 0
  | b :: t => b * 256 ^ t.length + bytesToNatBE t

/-- Big-endian byte decomposition of a machine integer, modelling the octet
views `Ipv4Addr::from (u32)` and `Ipv6Addr::from (u128)` expose. -/
def natToBytesBE : Nat → Nat → List Nat
  | 0, _ => []
  | k + 1, n => n / 256 ^ k % 256 :: natToBytesBE k n

/-- Rust `Ipv4Addr::from (u32)`: the four big-endian bytes of the value. -/
def ipv4FromU32 (n : Nat) : IpAddr := .v4 (natToBytesBE 4 n)

/-- Rust `Ipv6Addr::from (u128)`: the sixteen big-endian bytes of the value. -/
def ipv6FromU128 (n : Nat) : IpAddr := .v6 (natToBytesBE 16 n)

/-- The address-decoding block of `addr_add` (src/lib.rs lines 112-125):
dispatch on the `sa_family` discriminant, read the network-order payload of
the `sockaddr_in` / `sockaddr_in6` layout, and convert via
`u32::from_be` / `u128::from_be_bytes`; any other family is an error
carrying the discriminant. -/
def decodeSrcAddr (family : Nat) (payload : List Nat) : Except Nat IpAddr :=
  if family = AF_INET then .ok (ipv4FromU32 (bytesToNatBE (payload.take 4)))
  else if family = AF_INET6 then .ok (ipv6FromU128 (bytesToNatBE (payload.take 16)))
  else .error family

/-- A generic socket address as handed to the native API
(`socket2::SockAddr::from (SocketAddr)`): family tag, port, address bytes. -/
structure EncodedSockAddr where
  family : Nat
  port : Nat
  addrBytes : List Nat
deriving DecidableEq

/-- Rust `SockAddr::from (SocketAddr::new (ip, port))`: a `sockaddr_in` for v4 and
a `sockaddr_in6` for v6, with the address octets in network order. -/
def encodeSockAddr (ip : IpAddr) (port : Nat) : EncodedSockAddr :=
  match ip with
  | .v4 octets => ⟨AF_INET, port, octets⟩
  | .v6 octets => ⟨AF_INET6, port, octets⟩

/-- Rust `str::parse::<u64>`: optional leading `+`, then one or more ASCII
decimal digits, value below `2 ^ 64`; anything else fails. -/
def parseU64 (s : String) : Option Nat :=
  let cs :=
    match s.data with
    | c :: rest => if c = '+' then rest else s.data
    | [] => []
  if cs.length = 0 then none
  else if cs.all (fun c => 48 ≤ c.toNat ∧ c.toNat ≤ 57) then
    let v := cs.foldl (fun a c => a * 10 + (c.toNat - 48)) 0
    if v < 2 ^ 64 then some v else none
  else none

/-- A UTF-8 continuation byte (`0x80 ..= 0xBF`). -/
def isCont (b : Nat) : Bool := decide (128 ≤ b ∧ b ≤ 191)

/-- The U+FFFD replacement character. -/
def replChar : Char := Char.ofNat 0xFFFD

/-- Worker for `String::from_utf8_lossy`: standard UTF-8 validation with
substitution of maximal subparts, one U+FFFD per invalid subsequence.  The
fuel argument only bounds recursion; every step consumes at least one byte,
so `fuel = length` is enough. -/
def utf8LossyGo : Nat → List Nat → List Char
  | 0, _ => []
  | _, [] => []
  | fuel + 1, b :: rest =>
    if b < 128 then Char.ofNat b :: utf8LossyGo fuel rest
    else if 194 ≤ b ∧ b ≤ 223 then
      match rest with
      | [] => [replChar]
      | c1 :: rest1 =>
        if isCont c1 then
          Char.ofNat ((b - 192) * 64 + (c1 - 128)) :: utf8LossyGo fuel rest1
        else replChar :: utf8LossyGo fuel rest
    else if 224 ≤ b ∧ b ≤ 239 then
      match rest with
      | [] => [replChar]
      | c1 :: rest1 =>
        let lo := if b = 224 then 160 else 128
        let hi := if b = 237 then 159 else 191
        if lo ≤ c1 ∧ c1 ≤ hi then
          match rest1 with
          | [] => [replChar]
          | c2 :: rest2 =>
            if isCont c2 then
              Char.ofNat ((b - 224) * 4096 + (c1 - 128) * 64 + (c2 - 128)) ::
                utf8LossyGo fuel rest2
            else replChar :: utf8LossyGo fuel rest1
        else replChar :: utf8LossyGo fuel rest
    else if 240 ≤ b ∧ b ≤ 244 then
      match rest with
      | [] => [replChar]
      | c1 :: rest1 =>
        let lo := if b = 240 then 144 else 128
        let hi := if b = 244 then 143 else 191
        if lo ≤ c1 ∧ c1 ≤ hi then
          match rest1 with
          | [] => [replChar]
          | c2 :: rest2 =>
            if isCont c2 then
              match rest2 with
              | [] => [replChar]
              | c3 :: rest3 =>
                if isCont c3 then
                  Char.ofNat
                      ((b - 240) * 262144 + (c1 - 128) * 4096 +
                        (c2 - 128) * 64 + (c3 - 128)) ::
                    utf8LossyGo fuel rest3
                else replChar :: utf8LossyGo fuel rest2
            else replChar :: utf8LossyGo fuel rest1
        else replChar :: utf8LossyGo fuel rest
    else replChar :: utf8LossyGo fuel rest

/-- Rust `String::from_utf8_lossy` on a byte sequence, as a character list. -/
def utf8Lossy (bs : List Nat) : List Char := utf8LossyGo bs.length bs

/-- Rust `char::is_whitespace`: the Unicode White_Space code points. -/
def isRustWhitespace (c : Char) : Bool :=
  let n := c.toNat
  n == 9 || n == 10 || n == 11 || n == 12 || n == 13 || n == 32 ||
    n == 133 || n == 160 || n == 5760 ||
    (Nat.ble 8192 n && Nat.ble n 8202) ||
    n == 8232 || n == 8233 || n == 8239 || n == 8287 || n == 12288

/-- Rust `str::trim`: drop leading and trailing whitespace. -/
def rustTrim (s : List Char) : List Char :=
  ((s.dropWhile isRustWhitespace).reverse.dropWhile isRustWhitespace).reverse

/-- Rust `char::to_digit (radix)` for the radices the IP grammar uses. -/
def digitVal (radix : Nat) (c : Char) : Option Nat :=
  let n := c.toNat
  if 48 ≤ n ∧ n ≤ 57 ∧ n - 48 < radix then some (n - 48)
  else if 97 ≤ n ∧ n ≤ 102 ∧ radix = 16 then some (n - 87)
  else if 65 ≤ n ∧ n ≤ 70 ∧ radix = 16 then some (n - 55)
  else none

/-- Function `Parser::read_number (radix, max_digits, allow_zero_pad)` from Rust's
address grammar: greedily read digits, then fail on zero digits, too many
digits, a value at or above `bound` (the checked-arithmetic overflow of the
target integer type), or a disallowed leading zero. -/
def readNumber (radix maxDigits bound : Nat) (allowZeroPad : Bool)
    (s : List Char) : Option (Nat × List Char) :=
  let ds := s.takeWhile (fun c => (digitVal radix c).isSome)
  let rest := s.drop ds.length
  if ds.length = 0 then none
  else if maxDigits < ds.length then none
  else
    let v := ds.foldl (fun a c => a * radix + (digitVal radix c).getD 0) 0
    if bound ≤ v then none
    else if allowZeroPad = false ∧ ds.head? = some '0' ∧ 1 < ds.length then none
    else some (v, rest)

/-- Consume one expected character. -/
def expectChar (c : Char) : List Char → Option (List Char)
  | [] => none
  | x :: rest => if x = c then some rest else none

/-- Rust `Parser::read_ipv4_addr`: four decimal octets separated by dots, each at
most three digits, below 256, with no leading zero. -/
def readIpv4 (s : List Char) : Option (List Nat × List Char) := do
  let (a, s1) ← readNumber 10 3 256 false s
  let s2 ← expectChar '.' s1
  let (b, s3) ← readNumber 10 3 256 false s2
  let s4 ← expectChar '.' s3
  let (c, s5) ← readNumber 10 3 256 false s4
  let s6 ← expectChar '.' s5
  let (d, s7) ← readNumber 10 3 256 false s6
  some ([a, b, c, d], s7)

/-- Rust `Parser::read_separator (sep, index, inner)` specialised to `:`: the
separator is required before every group but the first. -/
def readSep {α : Type} (f : List Char → Option (α × List Char)) (i : Nat)
    (s : List Char) : Option (α × List Char) :=
  if i = 0 then f s
  else
    match s with
    | x :: rest => if x = ':' then f rest else none
    | [] => none

/-- The two 16-bit groups contributed by a trailing embedded IPv4 address. -/
def ipv4GroupsOf : List Nat → List Nat
  | [a, b, c, d] => [a * 256 + b, c * 256 + d]
  | _ => []

/-- Function `read_groups` from Rust's IPv6 grammar: fill up to `remaining` 16-bit
groups; at each position with at least two slots left, first try a trailing
embedded IPv4 address (which fills two groups and ends the scan with the
flag set); otherwise read a hex group of up to four digits.  Returns the
groups read, whether an embedded IPv4 ended the scan, and the rest. -/
def readGroups : Nat → Nat → List Char → List Nat × Bool × List Char
  | 0, _, s => ([], false, s)
  | remaining + 1, i, s =>
    match (if 1 ≤ remaining then readSep readIpv4 i s else none) with
    | some (oct, rest) => (ipv4GroupsOf oct, true, rest)
    | none =>
      match readSep (fun t => readNumber 16 4 65536 true t) i s with
      | some (g, rest) =>
        let (more, sawV4, rest2) := readGroups remaining (i + 1) rest
        (g :: more, sawV4, rest2)
      | none => ([], false, s)

/-- Rust `Parser::read_ipv6_addr`: read head groups; eight groups is a complete
address; otherwise an embedded IPv4 short of eight groups is an error, else
a literal `::` must follow, standing for at least one zero group, and the
tail fills the end of the address. -/
def readIpv6 (s : List Char) : Option (List Nat × List Char) :=
  let (head, sawV4, s1) := readGroups 8 0 s
  if head.length = 8 then some (head, s1)
  else if sawV4 then none
  else
    match expectChar ':' s1 with
    | none => none
    | some s2 =>
      match expectChar ':' s2 with
      | none => none
      | some s3 =>
        let limit := 8 - (head.length + 1)
        let (tail, _, s4) := readGroups limit 0 s3
        some (head ++ List.replicate (8 - head.length - tail.length) 0 ++ tail, s4)

/-- Big-endian byte expansion of the eight 16-bit IPv6 groups. -/
def groupsToBytes (gs : List Nat) : List Nat :=
  gs.foldr (fun g acc => g / 256 % 256 :: g % 256 :: acc) []

/-- Rust `str::parse::<IpAddr>`: try the IPv4 reader first (its success is
committed — leftover input then fails the parse), otherwise the IPv6
reader; the whole input must be consumed. -/
def parseIpAddr (s : List Char) : Option IpAddr :=
  match readIpv4 s with
  | some (oct, rest) => if rest.isEmpty then some (.v4 oct) else none
  | none =>
    match readIpv6 s with
    | some (gs, rest) => if rest.isEmpty then some (.v6 (groupsToBytes gs)) else none
    | none => none

/-- The HTTP response as seen by the callback: the status code, and the body
bytes if reading the body succeeds (`None` models a body-read failure). -/
structure HttpResponse where
  status : Nat
  body : Option (List Nat)
deriving DecidableEq

/-- The ambient world of one callback invocation: whether the
`ClientBuilder` build succeeds, the result of sending the GET request
(`none` is a transport failure), the daemon's identifier lookup
(`mptcpd_idm_get_id`) and the result code of `mptcpd_kpm_add_addr`. -/
structure World where
  clientBuildOk : Bool
  sendResult : Option HttpResponse
  getId : EncodedSockAddr → Nat
  addAddrResult : Int

/-- The triggering `new_local_address` event: the interface index and the
family-tagged raw socket-address record, with the address payload in
network byte order. -/
structure Event where
  ifaceIndex : Nat
  saFamily : Nat
  payload : List Nat
deriving DecidableEq

/-- One structured log line emitted by `addr_add`, with the fields the
source attaches at that site. -/
inductive LogEntry where
  | startAddAddr
  | unknownSaFamily (saFamily : Nat)
  | buildClientFailed
  | sendRequestFailed
  | badStatusCode (status : Nat) (body : Option String)
  | getBodyFailed
  | parseBodyFailed (body : String)
  | getRealIpDone (ip : IpAddr)
  | advertiseFailed (code : Int) (ip : IpAddr)
  | advertiseDone (ip : IpAddr)
deriving DecidableEq

/-- The failure reasons of one event, one per early-return path of
`addr_add`, named after the spec's error taxonomy. -/
inductive EventError where
  | unsupportedFamily (family : Nat)
  | clientBuildError
  | requestError
  | badStatus
  | getBodyError
  | malformedBody
  | advertiseError (code : Int)
deriving DecidableEq

/-- How the event ended: advertised successfully, or abandoned with an
error.  The C callback itself returns nothing either way. -/
inductive Outcome where
  | ok
  | err (e : EventError)
deriving DecidableEq

/-- One invocation of the daemon's advertisement primitive
`mptcpd_kpm_add_addr` with its arguments. -/
structure AdvCall where
  addr : EncodedSockAddr
  id : Nat
  flags : Nat
  ifaceIndex : Nat
deriving DecidableEq

/-- All observable effects of one callback invocation, in order within each
list: log lines, `ClientBuilder` configurations built (bind address and
timeout seconds), GET requests issued (URL), identifier lookups, and
advertisement calls. -/
structure Effects where
  log : List LogEntry
  clientBuilds : List (IpAddr × Nat)
  getRequests : List String
  idLookups : List EncodedSockAddr
  advertiseCalls : List AdvCall
deriving DecidableEq

/-- The async block of `addr_add` (src/lib.rs lines 150-179): send the GET
request, require status 200, read the body, decode it lossily as UTF-8,
trim it, and parse it as an IP address literal. -/
def resolveHttp (w : World) : Except EventError IpAddr :=
  match w.sendResult with
  | none => .error .requestError
  | some resp =>
    if resp.status ≠ 200 then .error .badStatus
    else
      match resp.body with
      | none => .error .getBodyError
      | some bytes =>
        match parseIpAddr (rustTrim (utf8Lossy bytes)) with
        | none => .error .malformedBody
        | some ip => .ok ip

/-- The log lines the async block of `addr_add` emits, mirroring the
branches of `resolveHttp`: the non-200 branch captures the body (if it can
be read) lossily decoded, for diagnostics only. -/
def resolveHttpLog (w : World) : List LogEntry :=
  match w.sendResult with
  | none => [.sendRequestFailed]
  | some resp =>
    if resp.status ≠ 200 then
      [.badStatusCode resp.status (resp.body.map (fun bs => String.mk (utf8Lossy bs)))]
    else
      match resp.body with
      | none => [.getBodyFailed]
      | some bytes =>
        match parseIpAddr (rustTrim (utf8Lossy bytes)) with
        | none => [.parseBodyFailed (String.mk (utf8Lossy bytes))]
        | some _ => []

/-- The body of `addr_add` after the two environment reads: decode the raw
address (unknown family logs the discriminant and returns), build the
client bound to the decoded address with the timeout, run the HTTP
resolution, then look up the identifier and advertise the resolved address
with flags SIGNAL|SUBFLOW and the event's interface index; a non-zero
advertisement result is logged and ends the event. -/
def addr_add_core (httpServer : String) (timeout : Nat) (w : World)
    (ev : Event) : Outcome × Effects :=
  match decodeSrcAddr ev.saFamily ev.payload with
  | .error fam =>
    (.err (.unsupportedFamily fam),
      { log := [.startAddAddr, .unknownSaFamily fam], clientBuilds := [],
        getRequests := [], idLookups := [], advertiseCalls := [] })
  | .ok src_addr =>
    if w.clientBuildOk = false then
      (.err .clientBuildError,
        { log := [.startAddAddr, .buildClientFailed],
          clientBuilds := [(src_addr, timeout)], getRequests := [],
          idLookups := [], advertiseCalls := [] })
    else
      match resolveHttp w with
      | .error e =>
        (.err e,
          { log := .startAddAddr :: resolveHttpLog w,
            clientBuilds := [(src_addr, timeout)], getRequests := [httpServer],
            idLookups := [], advertiseCalls := [] })
      | .ok ip =>
        let sock_addr := encodeSockAddr ip 0
        let id := w.getId sock_addr
        let call : AdvCall :=
          ⟨sock_addr, id, MPTCPD_ADDR_FLAG_SIGNAL ||| MPTCPD_ADDR_FLAG_SUBFLOW,
            ev.ifaceIndex⟩
        if w.addAddrResult ≠ 0 then
          (.err (.advertiseError w.addAddrResult),
            { log := .startAddAddr :: resolveHttpLog w ++
                [.getRealIpDone ip, .advertiseFailed w.addAddrResult ip],
              clientBuilds := [(src_addr, timeout)], getRequests := [httpServer],
              idLookups := [sock_addr], advertiseCalls := [call] })
        else
          (.ok,
            { log := .startAddAddr :: resolveHttpLog w ++
                [.getRealIpDone ip, .advertiseDone ip],
              clientBuilds := [(src_addr, timeout)], getRequests := [httpServer],
              idLookups := [sock_addr], advertiseCalls := [call] })

/-- The environment-variable name for the lookup-endpoint override. -/
def HTTP_SERVER_KEY : String := "REAL_IP_HTTP_SERVER"

/-- The environment-variable name for the timeout override. -/
def TIMEOUT_KEY : String := "REAL_IP_TIMEOUT_SECONDS"

/-- The full `addr_add` callback (src/lib.rs lines 93-211): the endpoint is
`REAL_IP_HTTP_SERVER` or the default, the timeout is
`REAL_IP_TIMEOUT_SECONDS` parsed as `u64` seconds or 10, then the core flow
runs. -/
def addr_add (env : String → Option String) (w : World) (ev : Event) :
    Outcome × Effects :=
  addr_add_core ((env HTTP_SERVER_KEY).getD GET_MY_IP)
    (((env TIMEOUT_KEY).bind parseU64).getD 10) w ev

theorem bytesToNatBE_lt : ∀ bs : List Nat, (∀ b ∈ bs, b < 256) →
    bytesToNatBE bs < 256 ^ bs.length
  | [], _ => by simp [bytesToNatBE]
  | b :: t, h => by
    have hb : b < 256 := h b (by simp)
    have ht := bytesToNatBE_lt t (fun x hx => h x (by simp [hx]))
    simp only [bytesToNatBE, List.length_cons, pow_succ]
    calc b * 256 ^ t.length + bytesToNatBE t
        < b * 256 ^ t.length + 256 ^ t.length := by omega
      _ = (b + 1) * 256 ^ t.length := by ring
      _ ≤ 256 * 256 ^ t.length := Nat.mul_le_mul_right _ (by omega)
      _ = 256 ^ t.length * 256 := by ring

theorem natToBytesBE_add_mul : ∀ (k b m : Nat),
    natToBytesBE k (b * 256 ^ k + m) = natToBytesBE k m
  | 0, _, _ => rfl
  | k + 1, b, m => by
    have hrw : b * 256 ^ (k + 1) + m = m + b * 256 * 256 ^ k := by ring
    rw [hrw]
    simp only [natToBytesBE]
    refine congrArg₂ _ ?_ ?_
    · rw [Nat.add_mul_div_right _ _ (Nat.pos_pow_of_pos k (by omega)),
        Nat.add_mul_mod_self_right]
    · have : m + b * 256 * 256 ^ k = b * 256 * 256 ^ k + m := by ring
      rw [this]
      exact natToBytesBE_add_mul k (b * 256) m

theorem natToBytesBE_bytesToNatBE : ∀ bs : List Nat, (∀ b ∈ bs, b < 256) →
    natToBytesBE bs.length (bytesToNatBE bs) = bs
  | [], _ => rfl
  | b :: t, h => by
    have hb : b < 256 := h b (by simp)
    have ht := natToBytesBE_bytesToNatBE t (fun x hx => h x (by simp [hx]))
    have hlt := bytesToNatBE_lt t (fun x hx => h x (by simp [hx]))
    simp only [List.length_cons, bytesToNatBE, natToBytesBE]
    refine congrArg₂ _ ?_ ?_
    · rw [Nat.add_comm, Nat.add_mul_div_right _ _ (Nat.pos_pow_of_pos _ (by omega)),
        Nat.div_eq_of_lt hlt]
      simp [Nat.mod_eq_of_lt hb]
    · rw [natToBytesBE_add_mul, ht]

theorem resolveHttpLog_of_ok (w : World) (ip : IpAddr)
    (h : resolveHttp w = .ok ip) : resolveHttpLog w = [] := by
  unfold resolveHttp at h
  unfold resolveHttpLog
  split at h
  · exact absurd h (by simp)
  · next resp heq =>
    by_cases h200 : resp.status ≠ 200
    · rw [if_pos h200] at h
      exact absurd h (by simp)
    · rw [if_neg h200] at h
      rw [if_neg h200]
      cases hb : resp.body with
      | none => rw [hb] at h; simp at h
      | some bytes =>
        rw [hb] at h
        have h2 : (match parseIpAddr (rustTrim (utf8Lossy bytes)) with
            | none => Except.error EventError.malformedBody
            | some ip2 => Except.ok ip2) = Except.ok ip := h
        show (match parseIpAddr (rustTrim (utf8Lossy bytes)) with
            | none => [LogEntry.parseBodyFailed (String.mk (utf8Lossy bytes))]
            | some _ => ([] : List LogEntry)) = []
        cases hp : parseIpAddr (rustTrim (utf8Lossy bytes)) with
        | none => rw [hp] at h2; simp at h2
        | some ip2 => rfl

/-- A concrete environment with no overrides set. -/
def env0 : String → Option String := fun _ => none

/-- Byte sequence of the spec's example body, the text `203.0.113.7`
followed by a newline. -/
def bodyExample : List Nat := [50, 48, 51, 46, 48, 46, 49, 49, 51, 46, 55, 10]

/-- A world in which every step of the flow succeeds. -/
def wOk : World := ⟨true, some ⟨200, some bodyExample⟩, fun _ => 7, 0⟩

/-- A concrete IPv4 triggering event on interface 3. -/
def evV4 : Event := ⟨3, AF_INET, [10, 0, 0, 1]⟩

/-- A concrete triggering event with an unsupported address family. -/
def evBad : Event := ⟨3, 7, [1, 2, 3, 4]⟩

/-- C2: for every raw address record whose family discriminant is neither
IPv4 nor IPv6, the event fails with UnsupportedFamily, the discriminant is
logged, and neither a network call nor an identifier lookup nor an
advertisement call happens. -/
theorem c2_unsupported_family (env : String → Option String) (w : World)
    (ev : Event) (h4 : ev.saFamily ≠ AF_INET) (h6 : ev.saFamily ≠ AF_INET6) :
    (addr_add env w ev).1 = .err (.unsupportedFamily ev.saFamily) ∧
    LogEntry.unknownSaFamily ev.saFamily ∈ (addr_add env w ev).2.log ∧
    (addr_add env w ev).2.getRequests = [] ∧
    (addr_add env w ev).2.advertiseCalls = [] ∧
    (addr_add env w ev).2.idLookups = [] := by
  have hdec : decodeSrcAddr ev.saFamily ev.payload = .error ev.saFamily := by
    unfold decodeSrcAddr
    rw [if_neg h4, if_neg h6]
  simp [addr_add, addr_add_core, hdec]

/-- Witness for C2 at the concrete family discriminant 7. -/
theorem c2_witness :
    (evBad.saFamily ≠ AF_INET ∧ evBad.saFamily ≠ AF_INET6) ∧
    ((addr_add env0 wOk evBad).1 = .err (.unsupportedFamily evBad.saFamily) ∧
      LogEntry.unknownSaFamily evBad.saFamily ∈ (addr_add env0 wOk evBad).2.log ∧
      (addr_add env0 wOk evBad).2.getRequests = [] ∧
      (addr_add env0 wOk evBad).2.advertiseCalls = [] ∧
      (addr_add env0 wOk evBad).2.idLookups = []) :=
  ⟨⟨by decide, by decide⟩,
    c2_unsupported_family env0 wOk evBad (by decide) (by decide)⟩

/-- C3: a valid IPv4 big-endian payload decodes with byte order exactly
preserved — byte `i` of the network-order payload is octet `i` of the
decoded address. -/
theorem c3_ipv4_byte_order (b0 b1 b2 b3 : Nat) (h0 : b0 < 256) (h1 : b1 < 256)
    (h2 : b2 < 256) (h3 : b3 < 256) :
    decodeSrcAddr AF_INET [b0, b1, b2, b3] = .ok (.v4 [b0, b1, b2, b3]) := by
  have hb : ∀ x ∈ [b0, b1, b2, b3], x < 256 := by
    intro x hx
    simp only [List.mem_cons, List.not_mem_nil, or_false] at hx
    rcases hx with rfl | rfl | rfl | rfl <;> assumption
  have h := natToBytesBE_bytesToNatBE [b0, b1, b2, b3] hb
  have h4 : ([b0, b1, b2, b3] : List Nat).length = 4 := rfl
  rw [h4] at h
  have htake : ([b0, b1, b2, b3] : List Nat).take 4 = [b0, b1, b2, b3] := rfl
  unfold decodeSrcAddr
  rw [if_pos rfl, htake]
  unfold ipv4FromU32
  rw [h]

/-- Witness for C3 at the spec's example payload bytes 93.184.216.34. -/
theorem c3_witness :
    ((93 : Nat) < 256 ∧ (184 : Nat) < 256 ∧ (216 : Nat) < 256 ∧
      (34 : Nat) < 256) ∧
    decodeSrcAddr AF_INET [93, 184, 216, 34] = .ok (.v4 [93, 184, 216, 34]) :=
  ⟨⟨by decide, by decide, by decide, by decide⟩,
    c3_ipv4_byte_order 93 184 216 34 (by decide) (by decide) (by decide)
      (by decide)⟩

/-- C4: decoding a valid IPv6 big-endian 128-bit payload round-trips:
re-encoding the decoded address as a socket address yields the original
sixteen payload bytes. -/
theorem c4_ipv6_roundtrip (bs : List Nat) (hlen : bs.length = 16)
    (hb : ∀ b ∈ bs, b < 256) :
    ∃ ip, decodeSrcAddr AF_INET6 bs = .ok ip ∧
      (encodeSockAddr ip 0).addrBytes = bs := by
  have h := natToBytesBE_bytesToNatBE bs hb
  rw [hlen] at h
  have htake : bs.take 16 = bs := by
    rw [← hlen]
    exact List.take_length bs
  refine ⟨ipv6FromU128 (bytesToNatBE bs), ?_, ?_⟩
  · unfold decodeSrcAddr
    rw [if_neg (by decide), if_pos rfl, htake]
  · unfold ipv6FromU128 encodeSockAddr
    simp [h]

/-- Witness for C4 at the concrete payload 0,1,...,15. -/
theorem c4_witness :
    ((List.range 16).length = 16 ∧ ∀ b ∈ List.range 16, b < 256) ∧
    ∃ ip, decodeSrcAddr AF_INET6 (List.range 16) = .ok ip ∧
      (encodeSockAddr ip 0).addrBytes = List.range 16 :=
  ⟨⟨by decide, by decide⟩, c4_ipv6_roundtrip _ (by decide) (by decide)⟩

/-- Conditional unfolding of `addr_add` once the address has decoded and the
client has been built: the rest of the flow is the HTTP resolution followed
by the advertisement step. -/
theorem addr_add_unfold (env : String → Option String) (w : World) (ev : Event)
    (src : IpAddr)
    (hdec : decodeSrcAddr ev.saFamily ev.payload = .ok src)
    (hbuild : w.clientBuildOk = true) :
    addr_add env w ev =
      (match resolveHttp w with
       | .error e =>
         (.err e,
           { log := .startAddAddr :: resolveHttpLog w,
             clientBuilds := [(src, ((env TIMEOUT_KEY).bind parseU64).getD 10)],
             getRequests := [(env HTTP_SERVER_KEY).getD GET_MY_IP],
             idLookups := [], advertiseCalls := [] })
       | .ok ip =>
         if w.addAddrResult ≠ 0 then
           (.err (.advertiseError w.addAddrResult),
             { log := .startAddAddr :: resolveHttpLog w ++
                 [.getRealIpDone ip, .advertiseFailed w.addAddrResult ip],
               clientBuilds := [(src, ((env TIMEOUT_KEY).bind parseU64).getD 10)],
               getRequests := [(env HTTP_SERVER_KEY).getD GET_MY_IP],
               idLookups := [encodeSockAddr ip 0],
               advertiseCalls :=
                 [⟨encodeSockAddr ip 0, w.getId (encodeSockAddr ip 0),
                   MPTCPD_ADDR_FLAG_SIGNAL ||| MPTCPD_ADDR_FLAG_SUBFLOW,
                   ev.ifaceIndex⟩] })
         else
           (.ok,
             { log := .startAddAddr :: resolveHttpLog w ++
                 [.getRealIpDone ip, .advertiseDone ip],
               clientBuilds := [(src, ((env TIMEOUT_KEY).bind parseU64).getD 10)],
               getRequests := [(env HTTP_SERVER_KEY).getD GET_MY_IP],
               idLookups := [encodeSockAddr ip 0],
               advertiseCalls :=
                 [⟨encodeSockAddr ip 0, w.getId (encodeSockAddr ip 0),
                   MPTCPD_ADDR_FLAG_SIGNAL ||| MPTCPD_ADDR_FLAG_SUBFLOW,
                   ev.ifaceIndex⟩] })) := by
  unfold addr_add addr_add_core
  rw [hdec, hbuild]
  rfl

/-- A world where resolution succeeds but the advertisement primitive
returns the non-zero code 5. -/
def wAdvErr : World := ⟨true, some ⟨200, some bodyExample⟩, fun _ => 7, 5⟩

/-- C1: on every successfully resolved event the advertisement primitive is
invoked exactly once, with the resolved address encoded as a socket address
with port 0, flags exactly SIGNAL and SUBFLOW, and the interface index of
the triggering event. -/
theorem c1_advertise_exactly_once (env : String → Option String) (w : World)
    (ev : Event) (src ip : IpAddr)
    (hdec : decodeSrcAddr ev.saFamily ev.payload = .ok src)
    (hbuild : w.clientBuildOk = true)
    (hres : resolveHttp w = .ok ip) :
    (addr_add env w ev).2.advertiseCalls =
      [⟨encodeSockAddr ip 0, w.getId (encodeSockAddr ip 0),
        MPTCPD_ADDR_FLAG_SIGNAL ||| MPTCPD_ADDR_FLAG_SUBFLOW, ev.ifaceIndex⟩] ∧
    (encodeSockAddr ip 0).port = 0 := by
  constructor
  · rw [addr_add_unfold env w ev src hdec hbuild]
    simp only [hres]
    split <;> rfl
  · cases ip <;> rfl

/-- Witness for C1 in a fully successful world. -/
theorem c1_witness :
    (decodeSrcAddr evV4.saFamily evV4.payload = .ok (.v4 [10, 0, 0, 1]) ∧
      wOk.clientBuildOk = true ∧
      resolveHttp wOk = .ok (.v4 [203, 0, 113, 7])) ∧
    ((addr_add env0 wOk evV4).2.advertiseCalls =
        [⟨encodeSockAddr (.v4 [203, 0, 113, 7]) 0,
          wOk.getId (encodeSockAddr (.v4 [203, 0, 113, 7]) 0),
          MPTCPD_ADDR_FLAG_SIGNAL ||| MPTCPD_ADDR_FLAG_SUBFLOW,
          evV4.ifaceIndex⟩] ∧
      (encodeSockAddr (.v4 [203, 0, 113, 7]) 0).port = 0) :=
  ⟨⟨rfl, rfl, rfl⟩,
    c1_advertise_exactly_once env0 wOk evV4 (.v4 [10, 0, 0, 1])
      (.v4 [203, 0, 113, 7]) rfl rfl rfl⟩

/-- C5: any non-200 response fails the event with BadStatus; the lossily
decoded body (when readable) is captured in the diagnostic log entry, no
advertisement call happens, and the outcome is independent of the body. -/
theorem c5_bad_status (env : String → Option String) (w : World) (ev : Event)
    (src : IpAddr) (resp : HttpResponse)
    (hdec : decodeSrcAddr ev.saFamily ev.payload = .ok src)
    (hbuild : w.clientBuildOk = true)
    (hsend : w.sendResult = some resp) (hstatus : resp.status ≠ 200) :
    (addr_add env w ev).1 = .err .badStatus ∧
    LogEntry.badStatusCode resp.status
        (resp.body.map (fun bs => String.mk (utf8Lossy bs))) ∈
      (addr_add env w ev).2.log ∧
    (addr_add env w ev).2.advertiseCalls = [] ∧
    ∀ b₂ : Option (List Nat),
      (addr_add env { w with sendResult := some ⟨resp.status, b₂⟩ } ev).1 =
          (addr_add env w ev).1 ∧
      (addr_add env { w with sendResult := some ⟨resp.status, b₂⟩ } ev).2.advertiseCalls =
        (addr_add env w ev).2.advertiseCalls := by
  have hres : resolveHttp w = .error .badStatus := by
    unfold resolveHttp
    simp only [hsend]
    rw [if_pos hstatus]
  have hlog : resolveHttpLog w = [.badStatusCode resp.status
      (resp.body.map (fun bs => String.mk (utf8Lossy bs)))] := by
    unfold resolveHttpLog
    simp only [hsend]
    rw [if_pos hstatus]
  refine ⟨?_, ?_, ?_, ?_⟩
  · rw [addr_add_unfold env w ev src hdec hbuild]
    simp only [hres]
  · rw [addr_add_unfold env w ev src hdec hbuild]
    simp only [hres, hlog]
    simp
  · rw [addr_add_unfold env w ev src hdec hbuild]
    simp only [hres]
  · intro b₂
    have hbuild₂ :
        ({ w with sendResult := some ⟨resp.status, b₂⟩ } : World).clientBuildOk =
          true := hbuild
    have hsend₂ :
        ({ w with sendResult := some ⟨resp.status, b₂⟩ } : World).sendResult =
          some ⟨resp.status, b₂⟩ := rfl
    have hres₂ : resolveHttp { w with sendResult := some ⟨resp.status, b₂⟩ } =
        .error .badStatus := by
      unfold resolveHttp
      simp only [hsend₂]
      rw [if_pos hstatus]
    rw [addr_add_unfold env w ev src hdec hbuild,
      addr_add_unfold env { w with sendResult := some ⟨resp.status, b₂⟩ } ev src
        hdec hbuild₂]
    simp only [hres, hres₂]
    simp

/-- Witness for C5 at a 503 response. -/
theorem c5_witness :
    (decodeSrcAddr evV4.saFamily evV4.payload = .ok (.v4 [10, 0, 0, 1]) ∧
      (⟨true, some ⟨503, some bodyExample⟩, fun _ => 7, 0⟩ : World).clientBuildOk = true ∧
      (⟨true, some ⟨503, some bodyExample⟩, fun _ => 7, 0⟩ : World).sendResult =
        some ⟨503, some bodyExample⟩ ∧
      (⟨503, some bodyExample⟩ : HttpResponse).status ≠ 200) ∧
    ((addr_add env0 ⟨true, some ⟨503, some bodyExample⟩, fun _ => 7, 0⟩ evV4).1 =
        .err .badStatus ∧
      LogEntry.badStatusCode 503
          ((some bodyExample).map (fun bs => String.mk (utf8Lossy bs))) ∈
        (addr_add env0 ⟨true, some ⟨503, some bodyExample⟩, fun _ => 7, 0⟩ evV4).2.log ∧
      (addr_add env0 ⟨true, some ⟨503, some bodyExample⟩, fun _ => 7, 0⟩ evV4).2.advertiseCalls = [] ∧
      ∀ b₂ : Option (List Nat),
        (addr_add env0 { (⟨true, some ⟨503, some bodyExample⟩, fun _ => 7, 0⟩ : World) with
            sendResult := some ⟨503, b₂⟩ } evV4).1 =
            (addr_add env0 ⟨true, some ⟨503, some bodyExample⟩, fun _ => 7, 0⟩ evV4).1 ∧
        (addr_add env0 { (⟨true, some ⟨503, some bodyExample⟩, fun _ => 7, 0⟩ : World) with
            sendResult := some ⟨503, b₂⟩ } evV4).2.advertiseCalls =
          (addr_add env0 ⟨true, some ⟨503, some bodyExample⟩, fun _ => 7, 0⟩ evV4).2.advertiseCalls) :=
  ⟨⟨rfl, rfl, rfl, by decide⟩,
    c5_bad_status env0 ⟨true, some ⟨503, some bodyExample⟩, fun _ => 7, 0⟩ evV4
      (.v4 [10, 0, 0, 1]) ⟨503, some bodyExample⟩ rfl rfl rfl (by decide)⟩

/-- C6: a 200 response body is lossily UTF-8 decoded, trimmed and parsed as
an IP literal: parse failure ends the event with MalformedBody and no
advertisement call, and a successful parse resolves to exactly that
address. -/
theorem c6_body_decode_parse (env : String → Option String) (w : World)
    (ev : Event) (src : IpAddr) (resp : HttpResponse) (bytes : List Nat)
    (hdec : decodeSrcAddr ev.saFamily ev.payload = .ok src)
    (hbuild : w.clientBuildOk = true)
    (hsend : w.sendResult = some resp)
    (hstatus : resp.status = 200) (hbody : resp.body = some bytes) :
    (parseIpAddr (rustTrim (utf8Lossy bytes)) = none →
      resolveHttp w = .error .malformedBody ∧
      (addr_add env w ev).1 = .err .malformedBody ∧
      (addr_add env w ev).2.advertiseCalls = []) ∧
    ∀ ip, parseIpAddr (rustTrim (utf8Lossy bytes)) = some ip →
      resolveHttp w = .ok ip := by
  constructor
  · intro hp
    have hres : resolveHttp w = .error .malformedBody := by
      unfold resolveHttp
      rw [hsend]
      simp [hstatus, hbody, hp]
    exact ⟨hres, by simp [addr_add, addr_add_core, hdec, hbuild, hres],
      by simp [addr_add, addr_add_core, hdec, hbuild, hres]⟩
  · intro ip hp
    unfold resolveHttp
    rw [hsend]
    simp [hstatus, hbody, hp]

/-- Witness for C6 at the spec's example body, the text `203.0.113.7` plus a
trailing newline, which resolves to 203.0.113.7. -/
theorem c6_witness :
    (decodeSrcAddr evV4.saFamily evV4.payload = .ok (.v4 [10, 0, 0, 1]) ∧
      wOk.clientBuildOk = true ∧
      wOk.sendResult = some ⟨200, some bodyExample⟩ ∧
      (⟨200, some bodyExample⟩ : HttpResponse).status = 200 ∧
      (⟨200, some bodyExample⟩ : HttpResponse).body = some bodyExample ∧
      parseIpAddr (rustTrim (utf8Lossy bodyExample)) =
        some (.v4 [203, 0, 113, 7])) ∧
    resolveHttp wOk = .ok (.v4 [203, 0, 113, 7]) :=
  ⟨⟨rfl, rfl, rfl, rfl, rfl, rfl⟩,
    (c6_body_decode_parse env0 wOk evV4 (.v4 [10, 0, 0, 1])
        ⟨200, some bodyExample⟩ bodyExample rfl rfl rfl rfl rfl).2
      (.v4 [203, 0, 113, 7]) rfl⟩

/-- C7: when the advertisement primitive returns a non-zero code the event
ends in AdvertiseError, the code and the resolved address are logged, the
success line is not logged, and the single advertisement call is the only
one made. -/
theorem c7_advertise_error (env : String → Option String) (w : World)
    (ev : Event) (src ip : IpAddr)
    (hdec : decodeSrcAddr ev.saFamily ev.payload = .ok src)
    (hbuild : w.clientBuildOk = true)
    (hres : resolveHttp w = .ok ip)
    (hcode : w.addAddrResult ≠ 0) :
    (addr_add env w ev).1 = .err (.advertiseError w.addAddrResult) ∧
    LogEntry.advertiseFailed w.addAddrResult ip ∈ (addr_add env w ev).2.log ∧
    LogEntry.advertiseDone ip ∉ (addr_add env w ev).2.log ∧
    (addr_add env w ev).2.advertiseCalls =
      [⟨encodeSockAddr ip 0, w.getId (encodeSockAddr ip 0),
        MPTCPD_ADDR_FLAG_SIGNAL ||| MPTCPD_ADDR_FLAG_SUBFLOW, ev.ifaceIndex⟩] := by
  have hlog := resolveHttpLog_of_ok w ip hres
  refine ⟨?_, ?_, ?_, ?_⟩ <;>
    simp [addr_add, addr_add_core, hdec, hbuild, hres, hlog, hcode]

/-- Witness for C7 at advertisement result code 5. -/
theorem c7_witness :
    (decodeSrcAddr evV4.saFamily evV4.payload = .ok (.v4 [10, 0, 0, 1]) ∧
      wAdvErr.clientBuildOk = true ∧
      resolveHttp wAdvErr = .ok (.v4 [203, 0, 113, 7]) ∧
      wAdvErr.addAddrResult ≠ 0) ∧
    ((addr_add env0 wAdvErr evV4).1 = .err (.advertiseError wAdvErr.addAddrResult) ∧
      LogEntry.advertiseFailed wAdvErr.addAddrResult (.v4 [203, 0, 113, 7]) ∈
        (addr_add env0 wAdvErr evV4).2.log ∧
      LogEntry.advertiseDone (.v4 [203, 0, 113, 7]) ∉
        (addr_add env0 wAdvErr evV4).2.log ∧
      (addr_add env0 wAdvErr evV4).2.advertiseCalls =
        [⟨encodeSockAddr (.v4 [203, 0, 113, 7]) 0,
          wAdvErr.getId (encodeSockAddr (.v4 [203, 0, 113, 7]) 0),
          MPTCPD_ADDR_FLAG_SIGNAL ||| MPTCPD_ADDR_FLAG_SUBFLOW,
          evV4.ifaceIndex⟩]) :=
  ⟨⟨rfl, rfl, rfl, by decide⟩,
    c7_advertise_error env0 wAdvErr evV4 (.v4 [10, 0, 0, 1])
      (.v4 [203, 0, 113, 7]) rfl rfl rfl (by decide)⟩

/-- An environment setting overrides under the names the spec uses,
`HTTP_SERVER` and `TIMEOUT_SECONDS`, with nothing else set. -/
def envClaimNames : String → Option String := fun k =>
  if k = "HTTP_SERVER" then some "http://override.example"
  else if k = "TIMEOUT_SECONDS" then some "3" else none

/-- C8 as stated is false: with `HTTP_SERVER` and `TIMEOUT_SECONDS` set (and
the keys the code reads unset), the callback still requests the default
endpoint with the default 10-second timeout instead of the overrides. -/
theorem c8_counterexample :
    envClaimNames "HTTP_SERVER" = some "http://override.example" ∧
    envClaimNames "TIMEOUT_SECONDS" = some "3" ∧
    (addr_add envClaimNames wOk evV4).2.getRequests = ["https://icanhazip.com"] ∧
    "https://icanhazip.com" ≠ "http://override.example" ∧
    (addr_add envClaimNames wOk evV4).2.clientBuilds = [(.v4 [10, 0, 0, 1], 10)] ∧
    (10 : Nat) ≠ 3 :=
  ⟨rfl, rfl, rfl, by decide, rfl, by decide⟩

/-- C8 (amended): for every event reaching the lookup, the URL is taken from
the `REAL_IP_HTTP_SERVER` environment override and otherwise defaults to
the public service `https://icanhazip.com`, and the timeout is taken from
the `REAL_IP_TIMEOUT_SECONDS` override (integer seconds) and otherwise
defaults to 10 seconds. -/
theorem c8_env_overrides (env : String → Option String) (w : World)
    (ev : Event) (src : IpAddr)
    (hdec : decodeSrcAddr ev.saFamily ev.payload = .ok src)
    (hbuild : w.clientBuildOk = true) :
    (addr_add env w ev).2.getRequests =
      [(env "REAL_IP_HTTP_SERVER").getD "https://icanhazip.com"] ∧
    (addr_add env w ev).2.clientBuilds =
      [(src, ((env "REAL_IP_TIMEOUT_SECONDS").bind parseU64).getD 10)] := by
  rw [addr_add_unfold env w ev src hdec hbuild]
  cases hres : resolveHttp w with
  | error e => exact ⟨rfl, rfl⟩
  | ok ip =>
    simp only [hres]
    constructor <;> (split <;> rfl)

/-- Witness for the amended C8 with both overrides set to the keys the code
reads. -/
theorem c8_witness :
    (decodeSrcAddr evV4.saFamily evV4.payload = .ok (.v4 [10, 0, 0, 1]) ∧
      wOk.clientBuildOk = true) ∧
    ((addr_add (fun k => if k = "REAL_IP_HTTP_SERVER" then some "http://10.1.2.3"
          else if k = "REAL_IP_TIMEOUT_SECONDS" then some "3" else none) wOk evV4).2.getRequests =
        [((fun k => if k = "REAL_IP_HTTP_SERVER" then some "http://10.1.2.3"
          else if k = "REAL_IP_TIMEOUT_SECONDS" then some "3" else none)
            "REAL_IP_HTTP_SERVER").getD "https://icanhazip.com"] ∧
      (addr_add (fun k => if k = "REAL_IP_HTTP_SERVER" then some "http://10.1.2.3"
          else if k = "REAL_IP_TIMEOUT_SECONDS" then some "3" else none) wOk evV4).2.clientBuilds =
        [(.v4 [10, 0, 0, 1],
          (((fun k => if k = "REAL_IP_HTTP_SERVER" then some "http://10.1.2.3"
            else if k = "REAL_IP_TIMEOUT_SECONDS" then some "3" else none)
              "REAL_IP_TIMEOUT_SECONDS").bind parseU64).getD 10)]) :=
  ⟨⟨rfl, rfl⟩,
    c8_env_overrides
      (fun k => if k = "REAL_IP_HTTP_SERVER" then some "http://10.1.2.3"
        else if k = "REAL_IP_TIMEOUT_SECONDS" then some "3" else none)
      wOk evV4 (.v4 [10, 0, 0, 1]) rfl rfl⟩

/-- C9: for every event that reaches the resolution step, exactly one HTTP
client is built and it binds to exactly the decoded local address, exactly
one GET request is issued to the endpoint, and a transport failure abandons
the event with no advertisement call (no retry). -/
theorem c9_bind_and_single_request (env : String → Option String) (w : World)
    (ev : Event) (src : IpAddr)
    (hdec : decodeSrcAddr ev.saFamily ev.payload = .ok src)
    (hbuild : w.clientBuildOk = true) :
    (addr_add env w ev).2.clientBuilds =
      [(src, ((env TIMEOUT_KEY).bind parseU64).getD 10)] ∧
    (addr_add env w ev).2.getRequests = [(env HTTP_SERVER_KEY).getD GET_MY_IP] ∧
    (w.sendResult = none →
      (addr_add env w ev).1 = .err .requestError ∧
      (addr_add env w ev).2.advertiseCalls = []) := by
  rw [addr_add_unfold env w ev src hdec hbuild]
  refine ⟨?_, ?_, ?_⟩
  · cases hres : resolveHttp w with
    | error e => rfl
    | ok ip =>
      simp only [hres]
      split <;> rfl
  · cases hres : resolveHttp w with
    | error e => rfl
    | ok ip =>
      simp only [hres]
      split <;> rfl
  · intro hnone
    have hres : resolveHttp w = .error .requestError := by
      unfold resolveHttp
      rw [hnone]
    simp only [hres]
    simp

/-- Witness for C9 in a world whose GET request fails at transport level. -/
theorem c9_witness :
    (decodeSrcAddr evV4.saFamily evV4.payload = .ok (.v4 [10, 0, 0, 1]) ∧
      (⟨true, none, fun _ => 7, 0⟩ : World).clientBuildOk = true) ∧
    ((addr_add env0 ⟨true, none, fun _ => 7, 0⟩ evV4).2.clientBuilds =
        [(.v4 [10, 0, 0, 1], ((env0 TIMEOUT_KEY).bind parseU64).getD 10)] ∧
      (addr_add env0 ⟨true, none, fun _ => 7, 0⟩ evV4).2.getRequests =
        [(env0 HTTP_SERVER_KEY).getD GET_MY_IP] ∧
      ((⟨true, none, fun _ => 7, 0⟩ : World).sendResult = none →
        (addr_add env0 ⟨true, none, fun _ => 7, 0⟩ evV4).1 = .err .requestError ∧
        (addr_add env0 ⟨true, none, fun _ => 7, 0⟩ evV4).2.advertiseCalls = [])) :=
  ⟨⟨rfl, rfl⟩,
    c9_bind_and_single_request env0 ⟨true, none, fun _ => 7, 0⟩ evV4
      (.v4 [10, 0, 0, 1]) rfl rfl⟩

/-- C10: a timeout override that does not parse as an unsigned integer is
silently ignored — the whole run is identical to the run with the override
unset, and any client that is built uses the default 10-second timeout. -/
theorem c10_malformed_timeout_ignored (env : String → Option String)
    (w : World) (ev : Event) (s : String)
    (henv : env TIMEOUT_KEY = some s) (hparse : parseU64 s = none) :
    addr_add env w ev =
      addr_add (fun k => if k = TIMEOUT_KEY then none else env k) w ev ∧
    ∀ src, decodeSrcAddr ev.saFamily ev.payload = .ok src →
      (addr_add env w ev).2.clientBuilds = [(src, 10)] := by
  have hne : HTTP_SERVER_KEY ≠ TIMEOUT_KEY := by decide
  have ht : ((env TIMEOUT_KEY).bind parseU64).getD 10 = 10 := by
    rw [henv]
    simp [hparse]
  constructor
  · unfold addr_add
    have h1 : (fun k => if k = TIMEOUT_KEY then none else env k) HTTP_SERVER_KEY =
        env HTTP_SERVER_KEY := by
      simp [hne]
    have h2 : (fun k => if k = TIMEOUT_KEY then none else env k) TIMEOUT_KEY =
        none := by
      simp
    rw [h1, h2, henv]
    simp [hparse]
  · intro src hdec
    cases hbo : w.clientBuildOk with
    | false =>
      simp [addr_add, addr_add_core, hdec, hbo, ht]
    | true =>
      rw [addr_add_unfold env w ev src hdec hbo]
      cases hres : resolveHttp w with
      | error e => simp only [hres]; rw [ht]
      | ok ip =>
        simp only [hres]
        split <;> (simp only []; rw [ht])

/-- Witness for C10 with the unparsable override value `abc`. -/
theorem c10_witness :
    ((fun k => if k = TIMEOUT_KEY then some "abc" else (none : Option String))
        TIMEOUT_KEY = some "abc" ∧
      parseU64 "abc" = none) ∧
    (addr_add (fun k => if k = TIMEOUT_KEY then some "abc" else none) wOk evV4 =
        addr_add (fun k => if k = TIMEOUT_KEY then none
          else (fun k => if k = TIMEOUT_KEY then some "abc" else none) k) wOk evV4 ∧
      ∀ src, decodeSrcAddr evV4.saFamily evV4.payload = .ok src →
        (addr_add (fun k => if k = TIMEOUT_KEY then some "abc" else none) wOk evV4).2.clientBuilds =
          [(src, 10)]) :=
  ⟨⟨rfl, rfl⟩,
    c10_malformed_timeout_ignored
      (fun k => if k = TIMEOUT_KEY then some "abc" else none) wOk evV4 "abc"
      rfl rfl⟩
